import Mathlib

/-!
Verification of the JSON-to-CSV container report generator
(`src/process_json_response.py`).

The program denormalizes a JSON:API-style document: `load_reference_tables`
builds three lookup tables (chemical type, space, laboratory) from the
document's `included` collection, and `extract_container_info` resolves one
Container record of `data` against those tables into a flat 14-column row;
`process_json_response` writes a CSV header and then one row per Container.

Python dictionaries are embedded as association lists whose lookup takes the
latest binding (matching dict-comprehension overwrite semantics), and code
that may raise `KeyError`/`IndexError` is embedded as `Except String`.
-/

namespace ProcessJson

/-- Lookup in an association list with Python-dict semantics: the binding
added last (rightmost in the list) wins. -/
def dictGet {α : Type} (d : List (String × α)) (k : String) : Option α :=
  match d with
  | [] => none
  | p :: rest =>
    match dictGet rest k with
    | some v => some v
    | none => if p.1 = k then some p.2 else none

/-- The relationship identifiers of a Container record:
`relationships.field_chemical_type.data.id`,
`relationships.field_chemical_space.data.id` (absent parts collapse to
`none`), and the list of ids in `relationships.og_audience.data`. -/
structure Relationships where
  field_chemical_type : Option String
  field_chemical_space : Option String
  og_audience : List String
deriving DecidableEq

/-- A Container record of `data`: its `attributes` dict and `relationships`. -/
structure Container where
  attributes : List (String × String)
  relationships : Relationships
deriving DecidableEq

/-- An auxiliary record of `included`: `id`, `type` and `attributes`. -/
structure IncludedRecord where
  id : String
  type : String
  attributes : List (String × String)
deriving DecidableEq

/-- The parsed input document; `data` and `included` keys may be absent. -/
structure Document where
  data : Option (List Container)
  included : Option (List IncludedRecord)
deriving DecidableEq

/-- The three lookup tables returned by `load_reference_tables`. -/
structure Reference where
  chemdb_type : List (String × List (String × String))
  space : List (String × List (String × String))
  laboratory : List (String × List (String × String))
deriving DecidableEq

def CSV_HEADER : List String :=
  ["Chemical Name", "CAS Number", "Group Name", "Location (space)",
   "Physical State", "chemical_formula", "Amount", "Units",
   "Container ID", "Manufacturer", "Product Name", "Product Number",
   "Date Received", "Expiration Date"]

def PHYSICAL_STATES : List (String × String) :=
  [("S", "Solid"), ("L", "Liquid"), ("G", "Gas")]

/-- The attribute keys kept for a `node--chemdb_type` record. -/
def CHEMDB_FIELDS : List String :=
  ["field_chemdb_cas_number", "field_chemdb_chemical_formula",
   "field_chemdb_physical_state"]

/-- The attribute keys kept for `node--space` and `node--laboratory` records. -/
def TITLE_FIELDS : List String := ["title"]

/-- The per-record attribute restriction of `load_reference_tables`:
`{title: value for title, value in attributes.items() if title in allowed}`. -/
def restrictAttributes (allowed : List String) (attrs : List (String × String)) :
    List (String × String) :=
  attrs.filter (fun p => decide (p.1 ∈ allowed))

/-- One dict comprehension of `load_reference_tables`: filter `included` to
records of `kind`, and map each record's `id` to its restricted attributes. -/
def buildTable (kind : String) (allowed : List String)
    (included : List IncludedRecord) :
    List (String × List (String × String)) :=
  (included.filter (fun r => decide (r.type = kind))).map
    (fun r => (r.id, restrictAttributes allowed r.attributes))

/-- The `Reference` built from an `included` collection: the body of
`load_reference_tables` once `data['included']` succeeded. -/
def buildReference (included : List IncludedRecord) : Reference :=
  { chemdb_type := buildTable "node--chemdb_type" CHEMDB_FIELDS included,
    space := buildTable "node--space" TITLE_FIELDS included,
    laboratory := buildTable "node--laboratory" TITLE_FIELDS included }

/-- `load_reference_tables(data)`: reads `data['included']` (raising
`KeyError` when absent) and builds the three tables. -/
def load_reference_tables (data : Document) : Except String Reference :=
  match data.included with
  | none => Except.error "KeyError: included"
  | some included => Except.ok (buildReference included)

/-- The 14-column output record returned by `extract_container_info`. -/
structure OutputRow where
  chemicalName : String
  casNumber : String
  groupName : String
  location : String
  physicalState : String
  chemicalFormula : String
  amount : String
  units : String
  containerId : String
  manufacturer : String
  productName : String
  productNumber : String
  dateReceived : String
  expirationDate : String
deriving DecidableEq

/-- The row's values in `CSV_HEADER` column order, as the `DictWriter`
serializes them. -/
def OutputRow.toList (r : OutputRow) : List String :=
  [r.chemicalName, r.casNumber, r.groupName, r.location, r.physicalState,
   r.chemicalFormula, r.amount, r.units, r.containerId, r.manufacturer,
   r.productName, r.productNumber, r.dateReceived, r.expirationDate]

/-- `extract_container_info(row_data, reference)`: resolve the chemical type,
space and first audience entry against `reference`, map the physical-state
code through `PHYSICAL_STATES`, and assemble the row from the Container's
attributes. Every dict/list access that can raise in Python is an
`Except.error` here, in the source's evaluation order. -/
def extract_container_info (row_data : Container) (reference : Reference) :
    Except String OutputRow :=
  match row_data.relationships.field_chemical_type with
  | none => Except.error "KeyError: field_chemical_type"
  | some chemical_type_id =>
  match dictGet reference.chemdb_type chemical_type_id with
  | none => Except.error ("KeyError: chemdb_type " ++ chemical_type_id)
  | some chem_type =>
  match dictGet chem_type "field_chemdb_cas_number" with
  | none => Except.error "KeyError: field_chemdb_cas_number"
  | some cas_number =>
  match dictGet chem_type "field_chemdb_physical_state" with
  | none => Except.error "KeyError: field_chemdb_physical_state"
  | some state_code =>
  match dictGet PHYSICAL_STATES state_code with
  | none => Except.error ("KeyError: physical state " ++ state_code)
  | some physical_state =>
  match dictGet chem_type "field_chemdb_chemical_formula" with
  | none => Except.error "KeyError: field_chemdb_chemical_formula"
  | some chemical_formula =>
  match row_data.relationships.field_chemical_space with
  | none => Except.error "KeyError: field_chemical_space"
  | some chemical_space_id =>
  match dictGet reference.space chemical_space_id with
  | none => Except.error ("KeyError: space " ++ chemical_space_id)
  | some space_entry =>
  match dictGet space_entry "title" with
  | none => Except.error "KeyError: space title"
  | some location =>
  match row_data.relationships.og_audience with
  | [] => Except.error "IndexError: og_audience"
  | lab_id :: _ =>
  match dictGet reference.laboratory lab_id with
  | none => Except.error ("KeyError: laboratory " ++ lab_id)
  | some lab_entry =>
  match dictGet lab_entry "title" with
  | none => Except.error "KeyError: laboratory title"
  | some owner =>
  match dictGet row_data.attributes "field_chemical_product_name" with
  | none => Except.error "KeyError: field_chemical_product_name"
  | some product_name =>
  match dictGet row_data.attributes "field_chemical_amount" with
  | none => Except.error "KeyError: field_chemical_amount"
  | some amount =>
  match dictGet row_data.attributes "field_chemical_unit_of_measure" with
  | none => Except.error "KeyError: field_chemical_unit_of_measure"
  | some unit_of_measure =>
  match dictGet row_data.attributes "field_chemical_container_id" with
  | none => Except.error "KeyError: field_chemical_container_id"
  | some container_id =>
  match dictGet row_data.attributes "field_chemical_product_number" with
  | none => Except.error "KeyError: field_chemical_product_number"
  | some product_number =>
  match dictGet row_data.attributes "field_chemical_received" with
  | none => Except.error "KeyError: field_chemical_received"
  | some received =>
  match dictGet row_data.attributes "field_chemical_expiration" with
  | none => Except.error "KeyError: field_chemical_expiration"
  | some expiration =>
  Except.ok
    { chemicalName := product_name,
      casNumber := cas_number,
      groupName := owner,
      location := location,
      physicalState := physical_state,
      chemicalFormula := chemical_formula,
      amount := amount,
      units := unit_of_measure,
      containerId := container_id,
      manufacturer := product_name,
      productName := product_name,
      productNumber := product_number,
      dateReceived := received,
      expirationDate := expiration }

/-- The CSV-writing loop of `process_json_response`: extract each Container
in order, writing each row as it is produced; an extraction error aborts the
loop, keeping the rows already written. Returns (rows written, error). -/
def runRows (reference : Reference) : List Container → List OutputRow × Option String
  | [] => ([], none)
  | container :: rest =>
    match extract_container_info container reference with
    | Except.error e => ([], some e)
    | Except.ok row =>
      match runRows reference rest with
      | (rows, err) => (row :: rows, err)

/-- `process_json_response`: build the reference tables, then write the
header line and one line per Container of `data`, in order. Returns the
lines left in the output file and the error that aborted the run, if any.
The reference tables are built before the output file is opened, so a
missing `included` leaves no lines; the header is written before `data` is
read, so a missing `data` leaves the header. -/
def process_json_response (json_data : Document) :
    List (List String) × Option String :=
  match load_reference_tables json_data with
  | Except.error e => ([], some e)
  | Except.ok reference =>
    match json_data.data with
    | none => ([CSV_HEADER], some "KeyError: data")
    | some containers =>
      match runRows reference containers with
      | (rows, err) => (CSV_HEADER :: rows.map OutputRow.toList, err)

/-- Extraction applied to each Container in input order, with no writing
interleaved: the reference sequence of rows a fully valid run produces. -/
def extractAll (reference : Reference) : List Container → Except String (List OutputRow)
  | [] => Except.ok []
  | container :: rest =>
    match extract_container_info container reference with
    | Except.error e => Except.error e
    | Except.ok row =>
      match extractAll reference rest with
      | Except.error e => Except.error e
      | Except.ok rows => Except.ok (row :: rows)

/-- Whether the extractor produced a row (`Except.ok`) for a Container. -/
def isRow : Except String OutputRow → Bool
  | Except.ok _ => true
  | Except.error _ => false

/-- The chemical-type relationship resolved against the index: `none` when
the identifier is missing or absent from the `chemdb_type` mapping. -/
def typeLookup (row_data : Container) (reference : Reference) :
    Option (List (String × String)) :=
  match row_data.relationships.field_chemical_type with
  | none => none
  | some tid => dictGet reference.chemdb_type tid

/-- The space relationship resolved against the index: `none` when the
identifier is missing or absent from the `space` mapping. -/
def spaceLookup (row_data : Container) (reference : Reference) :
    Option (List (String × String)) :=
  match row_data.relationships.field_chemical_space with
  | none => none
  | some sid => dictGet reference.space sid

/-- The first audience entry resolved against the index: `none` when the
audience list is empty or its first id is absent from the `laboratory`
mapping. -/
def labLookup (row_data : Container) (reference : Reference) :
    Option (List (String × String)) :=
  match row_data.relationships.og_audience with
  | [] => none
  | lab_id :: _ => dictGet reference.laboratory lab_id

/-- The physical-state code a Container resolves to through the index, when
the chemical-type lookup and the state attribute are all present. -/
def stateCodeOf (row_data : Container) (reference : Reference) : Option String :=
  match typeLookup row_data reference with
  | none => none
  | some chem_type => dictGet chem_type "field_chemdb_physical_state"

/-- Laboratory id resolved to its title through the index. -/
def ownerLookup (reference : Reference) (lab_id : String) : Option String :=
  match dictGet reference.laboratory lab_id with
  | none => none
  | some lab_entry => dictGet lab_entry "title"

/-! Concrete documents used as test inputs for the scenario claims. -/

/-- The Container of the worked scenario: references `T1`, `S1`, audience
`[G1]`, product name Acetone. -/
def exampleContainer : Container :=
  { attributes :=
      [("field_chemical_product_name", "Acetone"),
       ("field_chemical_amount", "500"),
       ("field_chemical_unit_of_measure", "mL"),
       ("field_chemical_container_id", "C-001"),
       ("field_chemical_product_number", "P-99"),
       ("field_chemical_received", "2023-01-01"),
       ("field_chemical_expiration", "2025-01-01")],
    relationships :=
      { field_chemical_type := some "T1",
        field_chemical_space := some "S1",
        og_audience := ["G1"] } }

/-- The auxiliary collection of the worked scenario: one chemical type `T1`,
one space `S1`, one laboratory `G1`. -/
def exampleIncluded : List IncludedRecord :=
  [{ id := "T1", type := "node--chemdb_type",
     attributes :=
       [("field_chemdb_cas_number", "123-45-6"),
        ("field_chemdb_physical_state", "L"),
        ("field_chemdb_chemical_formula", "H2O")] },
   { id := "S1", type := "node--space", attributes := [("title", "Room 204")] },
   { id := "G1", type := "node--laboratory",
     attributes := [("title", "Smith Lab")] }]

/-- The document of the worked scenario. -/
def exampleDoc : Document :=
  { data := some [exampleContainer], included := some exampleIncluded }

/-- The row the scenario expects, in `CSV_HEADER` column order. -/
def exampleRowList : List String :=
  ["Acetone", "123-45-6", "Smith Lab", "Room 204", "Liquid", "H2O",
   "500", "mL", "C-001", "Acetone", "Acetone", "P-99",
   "2023-01-01", "2025-01-01"]

/-- C1: on the worked scenario document (chemical type `T1`, space `S1`,
laboratory `G1`, one Container referencing them), the Row Extractor applied
after building the Reference Index produces exactly the expected 14-column
row, in that column order. -/
theorem C1_scenario_row :
    (load_reference_tables exampleDoc).bind
        (fun reference =>
          (extract_container_info exampleContainer reference).map OutputRow.toList)
      = Except.ok exampleRowList
    ∧ process_json_response exampleDoc = ([CSV_HEADER, exampleRowList], none) := by
  constructor <;> rfl

/-- The empty Reference Index: all three mappings empty. -/
def emptyReference : Reference := { chemdb_type := [], space := [], laboratory := [] }

/-- The row the scenario produces, as a structure. -/
def exampleRow : OutputRow :=
  { chemicalName := "Acetone", casNumber := "123-45-6", groupName := "Smith Lab",
    location := "Room 204", physicalState := "Liquid", chemicalFormula := "H2O",
    amount := "500", units := "mL", containerId := "C-001",
    manufacturer := "Acetone", productName := "Acetone", productNumber := "P-99",
    dateReceived := "2023-01-01", expirationDate := "2025-01-01" }

/-- A physical-state code different from S, L and G resolves to nothing in
`PHYSICAL_STATES`. -/
theorem dictGet_physical_states_none (code : String)
    (hS : code ≠ "S") (hL : code ≠ "L") (hG : code ≠ "G") :
    dictGet PHYSICAL_STATES code = none := by
  simp [dictGet, PHYSICAL_STATES, Ne.symm hS, Ne.symm hL, Ne.symm hG]

/-- A Container whose resolved physical-state code is absent from
`PHYSICAL_STATES` fails extraction. -/
theorem extract_error_of_bad_state (row_data : Container) (reference : Reference)
    (code : String) (hc : stateCodeOf row_data reference = some code)
    (hnone : dictGet PHYSICAL_STATES code = none) :
    isRow (extract_container_info row_data reference) = false := by
  unfold stateCodeOf typeLookup at hc
  unfold extract_container_info
  cases h1 : row_data.relationships.field_chemical_type with
  | none => rw [h1] at hc; simp at hc
  | some tid =>
    rw [h1] at hc
    simp only [] at hc
    cases h2 : dictGet reference.chemdb_type tid with
    | none => rw [h2] at hc; simp at hc
    | some ct =>
      rw [h2] at hc
      simp only [] at hc
      cases h3 : dictGet ct "field_chemdb_cas_number" with
      | none => simp [h1, h2, h3, isRow]
      | some cas => simp [h1, h2, h3, hc, hnone, isRow]

/-- C2: the physical-state mapping is total over the codes S, L, G with
values Solid, Liquid, Gas; every other code resolves to nothing, and a
Container carrying such a code fails extraction (no row is produced). -/
theorem C2_physical_state_mapping :
    (dictGet PHYSICAL_STATES "S" = some "Solid"
      ∧ dictGet PHYSICAL_STATES "L" = some "Liquid"
      ∧ dictGet PHYSICAL_STATES "G" = some "Gas")
    ∧ (∀ code : String, code ≠ "S" → code ≠ "L" → code ≠ "G" →
        dictGet PHYSICAL_STATES code = none)
    ∧ (∀ row_data reference code, stateCodeOf row_data reference = some code →
        code ≠ "S" → code ≠ "L" → code ≠ "G" →
        isRow (extract_container_info row_data reference) = false) := by
  refine ⟨⟨by decide, by decide, by decide⟩, ?_, ?_⟩
  · intro code hS hL hG
    exact dictGet_physical_states_none code hS hL hG
  · intro row_data reference code hc hS hL hG
    exact extract_error_of_bad_state row_data reference code hc
      (dictGet_physical_states_none code hS hL hG)

/-- C3: a Container whose chemical-type, space, or first-audience reference
is missing or absent from the corresponding Reference Index mapping fails
extraction: an error is returned and no row (not even a partial one) is
produced. -/
theorem C3_missing_reference_fails (row_data : Container) (reference : Reference)
    (h : typeLookup row_data reference = none
       ∨ spaceLookup row_data reference = none
       ∨ labLookup row_data reference = none) :
    isRow (extract_container_info row_data reference) = false := by
  unfold typeLookup spaceLookup labLookup at h
  unfold extract_container_info
  repeat' split
  all_goals simp_all [isRow]

/-- C3 witness: the scenario Container against an empty Reference Index
fails extraction. -/
theorem C3_missing_reference_fails_witness :
    isRow (extract_container_info exampleContainer emptyReference) = false :=
  C3_missing_reference_fails exampleContainer emptyReference (Or.inl rfl)

/-- C5: in every row the extractor produces, Chemical Name, Manufacturer and
Product Name are equal (all three carry the Container's product name). -/
theorem C5_duplicated_name_columns (row_data : Container) (reference : Reference)
    (row : OutputRow) (h : extract_container_info row_data reference = Except.ok row) :
    row.chemicalName = row.productName ∧ row.manufacturer = row.productName := by
  unfold extract_container_info at h
  repeat' split at h
  all_goals first
    | (injection h with h2
       subst h2
       exact And.intro rfl rfl)
    | injection h

/-- C5 witness: the scenario row has equal Chemical Name, Manufacturer and
Product Name. -/
theorem C5_duplicated_name_columns_witness :
    exampleRow.chemicalName = exampleRow.productName
    ∧ exampleRow.manufacturer = exampleRow.productName :=
  C5_duplicated_name_columns exampleContainer (buildReference exampleIncluded)
    exampleRow (by rfl)

/-- When extraction succeeds on every Container, the writing loop writes
exactly the extracted rows and reports no error. -/
theorem runRows_of_extractAll (reference : Reference) (containers : List Container)
    (rows : List OutputRow)
    (h : extractAll reference containers = Except.ok rows) :
    runRows reference containers = (rows, none) := by
  induction containers generalizing rows with
  | nil =>
    unfold extractAll at h
    injection h with h2
    subst h2
    rfl
  | cons c rest ih =>
    unfold extractAll at h
    unfold runRows
    cases hc : extract_container_info c reference with
    | error e => rw [hc] at h; exact absurd h (by simp)
    | ok row =>
      rw [hc] at h
      cases hr : extractAll reference rest with
      | error e => rw [hr] at h; exact absurd h (by simp)
      | ok rows2 =>
        rw [hr] at h
        injection h with h2
        subst h2
        rw [ih rows2 hr]

/-- Successful extraction yields one row per Container. -/
theorem extractAll_length (reference : Reference) (containers : List Container)
    (rows : List OutputRow)
    (h : extractAll reference containers = Except.ok rows) :
    rows.length = containers.length := by
  induction containers generalizing rows with
  | nil =>
    unfold extractAll at h
    injection h with h2
    subst h2
    rfl
  | cons c rest ih =>
    unfold extractAll at h
    cases hc : extract_container_info c reference with
    | error e => rw [hc] at h; exact absurd h (by simp)
    | ok row =>
      rw [hc] at h
      cases hr : extractAll reference rest with
      | error e => rw [hr] at h; exact absurd h (by simp)
      | ok rows2 =>
        rw [hr] at h
        injection h with h2
        subst h2
        simp [ih rows2 hr]

/-- C4: on a valid document (reference tables build, `data` present, every
Container extracts), the output is the header followed by the extracted rows
in input order, one per Container; an empty `data` list is the instance with
zero rows. -/
theorem C4_rows_in_input_order (doc : Document) (containers : List Container)
    (reference : Reference) (rows : List OutputRow)
    (h1 : load_reference_tables doc = Except.ok reference)
    (h2 : doc.data = some containers)
    (h3 : extractAll reference containers = Except.ok rows) :
    process_json_response doc = (CSV_HEADER :: rows.map OutputRow.toList, none)
    ∧ rows.length = containers.length := by
  constructor
  · simp [process_json_response, h1, h2,
      runRows_of_extractAll reference containers rows h3]
  · exact extractAll_length reference containers rows h3

/-- C4 witness: the scenario document yields header plus its one row. -/
theorem C4_rows_in_input_order_witness :
    process_json_response exampleDoc
      = (CSV_HEADER :: ([exampleRow].map OutputRow.toList), none)
    ∧ ([exampleRow] : List OutputRow).length
        = ([exampleContainer] : List Container).length :=
  C4_rows_in_input_order exampleDoc [exampleContainer]
    (buildReference exampleIncluded) [exampleRow] rfl rfl rfl

/-- The writing loop on a list whose prefix extracts and whose next
Container fails: the prefix rows are written, then the error aborts it. -/
theorem runRows_prefix_error (reference : Reference) (good : List Container)
    (bad : Container) (rest : List Container) (rows : List OutputRow) (e : String)
    (hgood : extractAll reference good = Except.ok rows)
    (hbad : extract_container_info bad reference = Except.error e) :
    runRows reference (good ++ bad :: rest) = (rows, some e) := by
  induction good generalizing rows with
  | nil =>
    unfold extractAll at hgood
    injection hgood with h2
    subst h2
    simp [runRows, hbad]
  | cons c gs ih =>
    unfold extractAll at hgood
    cases hc : extract_container_info c reference with
    | error e2 => rw [hc] at hgood; exact absurd hgood (by simp)
    | ok row =>
      rw [hc] at hgood
      cases hr : extractAll reference gs with
      | error e2 => rw [hr] at hgood; exact absurd hgood (by simp)
      | ok rows2 =>
        rw [hr] at hgood
        injection hgood with h2
        subst h2
        simp [runRows, hc, ih rows2 hr]

/-- A Container referencing the unknown chemical type `T2`. -/
def badContainer : Container :=
  { attributes := exampleContainer.attributes,
    relationships :=
      { field_chemical_type := some "T2",
        field_chemical_space := some "S1",
        og_audience := ["G1"] } }

/-- A document whose first Container is valid and whose second references a
missing chemical type. -/
def partialDoc : Document :=
  { data := some [exampleContainer, badContainer],
    included := some exampleIncluded }

/-- C8 counterexample: on `partialDoc` the run fails (the second Container's
chemical-type lookup raises), yet a data row for the first Container has
already been written: the output holds the header plus one data row, so a
failing run does leave data rows behind. -/
theorem C8_counterexample :
    process_json_response partialDoc
      = ([CSV_HEADER, exampleRowList], some "KeyError: chemdb_type T2")
    ∧ (process_json_response partialDoc).1.length = 2 :=
  ⟨rfl, rfl⟩

/-- C8 amended: output is written incrementally. When every Container before
the first failing one extracts, the run leaves exactly the header plus the
rows of that prefix, and reports the failing Container's error; the full
output appears only when every Container extracts (C4). -/
theorem C8_amended_incremental_output (doc : Document) (reference : Reference)
    (good : List Container) (bad : Container) (rest : List Container)
    (rows : List OutputRow) (e : String)
    (h1 : load_reference_tables doc = Except.ok reference)
    (h2 : doc.data = some (good ++ bad :: rest))
    (h3 : extractAll reference good = Except.ok rows)
    (h4 : extract_container_info bad reference = Except.error e) :
    process_json_response doc
      = (CSV_HEADER :: rows.map OutputRow.toList, some e) := by
  simp [process_json_response, h1, h2,
    runRows_prefix_error reference good bad rest rows e h3 h4]

/-- C8 amended witness: on `partialDoc`, header plus the first row is left
behind together with the error of the second Container. -/
theorem C8_amended_incremental_output_witness :
    process_json_response partialDoc
      = (CSV_HEADER :: ([exampleRow].map OutputRow.toList),
         some "KeyError: chemdb_type T2") :=
  C8_amended_incremental_output partialDoc (buildReference exampleIncluded)
    [exampleContainer] badContainer [] [exampleRow]
    "KeyError: chemdb_type T2" rfl rfl rfl rfl

/-- C9: the Row Extractor uses exactly the first audience entry: replacing
every entry after the first changes nothing in its result, and in every row
it produces the Group Name is the title of the Laboratory record of the
first entry's identifier. -/
theorem C9_first_audience_entry (attrs : List (String × String))
    (t s : Option String) (a : String) (rest rest2 : List String)
    (reference : Reference) :
    extract_container_info ⟨attrs, ⟨t, s, a :: rest⟩⟩ reference
      = extract_container_info ⟨attrs, ⟨t, s, a :: rest2⟩⟩ reference
    ∧ ∀ row, extract_container_info ⟨attrs, ⟨t, s, a :: rest⟩⟩ reference
          = Except.ok row →
        ownerLookup reference a = some row.groupName := by
  constructor
  · rfl
  · intro row h
    unfold extract_container_info at h
    repeat' split at h
    all_goals first
      | (injection h with h2
         subst h2
         simp_all [ownerLookup])
      | injection h

/-- Lookup on a cons, spelled out. -/
theorem dictGet_cons {α : Type} (k2 : String) (v : α) (d : List (String × α))
    (i : String) :
    dictGet ((k2, v) :: d) i
      = match dictGet d i with
        | some w => some w
        | none => if k2 = i then some v else none := rfl

/-- Lookup prefers the later list: on an append, the right list's binding
wins. -/
theorem dictGet_append {α : Type} (d1 d2 : List (String × α)) (k : String) :
    dictGet (d1 ++ d2) k
      = match dictGet d2 k with
        | some v => some v
        | none => dictGet d1 k := by
  induction d1 with
  | nil =>
    cases h2 : dictGet d2 k <;> simp [dictGet, h2]
  | cons p rest ih =>
    rw [List.cons_append, dictGet_cons, ih, dictGet_cons]
    cases h2 : dictGet d2 k <;> cases hr : dictGet rest k <;> rfl

/-- `buildTable` on a cons: a record of the kind contributes its binding. -/
theorem buildTable_cons (kind : String) (allowed : List String)
    (r : IncludedRecord) (rest : List IncludedRecord) :
    buildTable kind allowed (r :: rest)
      = if r.type = kind
          then (r.id, restrictAttributes allowed r.attributes)
              :: buildTable kind allowed rest
          else buildTable kind allowed rest := by
  by_cases h : r.type = kind <;> simp [buildTable, h]

/-- `buildTable` distributes over append. -/
theorem buildTable_append (kind : String) (allowed : List String)
    (l1 l2 : List IncludedRecord) :
    buildTable kind allowed (l1 ++ l2)
      = buildTable kind allowed l1 ++ buildTable kind allowed l2 := by
  simp [buildTable, List.filter_append]

/-- A key resolves in a built table exactly when some record of the kind
carries that id. -/
theorem dictGet_buildTable_isSome (kind : String) (allowed : List String)
    (included : List IncludedRecord) (i : String) :
    (dictGet (buildTable kind allowed included) i).isSome
      = included.any (fun r => decide (r.type = kind) && decide (r.id = i)) := by
  induction included with
  | nil => rfl
  | cons r rest ih =>
    rw [buildTable_cons]
    by_cases ht : r.type = kind
    · rw [if_pos ht, dictGet_cons]
      cases hd : dictGet (buildTable kind allowed rest) i with
      | some w =>
        rw [hd] at ih
        simp [List.any_cons, ht, ← ih]
      | none =>
        rw [hd] at ih
        by_cases hi : r.id = i <;> simp [List.any_cons, ht, hi, ← ih]
    · rw [if_neg ht]
      simp [List.any_cons, ht, ih]

/-- Every binding of a built table comes from a record of the kind with that
id, restricted to the allowed attribute keys. -/
theorem dictGet_buildTable_some (kind : String) (allowed : List String)
    (included : List IncludedRecord) (i : String) (entry : List (String × String))
    (h : dictGet (buildTable kind allowed included) i = some entry) :
    ∃ r, r ∈ included ∧ r.type = kind ∧ r.id = i
      ∧ entry = restrictAttributes allowed r.attributes := by
  induction included with
  | nil => exact absurd h (by simp [buildTable, dictGet])
  | cons r rest ih =>
    rw [buildTable_cons] at h
    by_cases ht : r.type = kind
    · rw [if_pos ht, dictGet_cons] at h
      cases hd : dictGet (buildTable kind allowed rest) i with
      | some w =>
        rw [hd] at h
        injection h with h2
        subst h2
        obtain ⟨r2, hmem, h1, h2, h3⟩ := ih hd
        exact ⟨r2, List.mem_cons_of_mem r hmem, h1, h2, h3⟩
      | none =>
        rw [hd] at h
        by_cases hi : r.id = i
        · rw [if_pos hi] at h
          injection h with h2
          exact ⟨r, List.mem_cons_self r rest, ht, hi, h2.symm⟩
        · rw [if_neg hi] at h
          exact absurd h (by simp)
    · rw [if_neg ht] at h
      obtain ⟨r2, hmem, h1, h2, h3⟩ := ih h
      exact ⟨r2, List.mem_cons_of_mem r hmem, h1, h2, h3⟩

/-- A key carried by no record of the kind resolves to nothing. -/
theorem dictGet_buildTable_none (kind : String) (allowed : List String)
    (included : List IncludedRecord) (i : String)
    (h : ∀ r2 ∈ included, ¬(r2.type = kind ∧ r2.id = i)) :
    dictGet (buildTable kind allowed included) i = none := by
  have hs := dictGet_buildTable_isSome kind allowed included i
  have hany : included.any (fun r => decide (r.type = kind) && decide (r.id = i))
      = false := by
    rw [List.any_eq_false]
    intro r2 hmem
    simp only [Bool.and_eq_true, decide_eq_true_eq, not_and]
    intro h1 h2
    exact h r2 hmem ⟨h1, h2⟩
  rw [hany] at hs
  exact Option.not_isSome_iff_eq_none.mp (by simp [hs])

/-- Every `restrictAttributes` member's key is allowed and came from the
record's attributes. -/
theorem mem_restrictAttributes (allowed : List String)
    (attrs : List (String × String)) (p : String × String)
    (h : p ∈ restrictAttributes allowed attrs) :
    p.1 ∈ allowed ∧ p ∈ attrs := by
  rw [restrictAttributes, List.mem_filter] at h
  exact ⟨by simpa using h.2, h.1⟩

/-- C6: for every auxiliary collection, building the index succeeds, the key
set of each of the three mappings is exactly the ids of the records of that
kind (records of other kinds are excluded), and every entry is the matching
record's attributes restricted to that kind's enumerated fields, so it holds
only those fields. -/
theorem C6_reference_index_shape (included : List IncludedRecord)
    (d : Option (List Container)) :
    load_reference_tables { data := d, included := some included }
        = Except.ok (buildReference included)
    ∧ (∀ i, (dictGet (buildReference included).chemdb_type i).isSome
        = included.any (fun r => decide (r.type = "node--chemdb_type")
            && decide (r.id = i)))
    ∧ (∀ i, (dictGet (buildReference included).space i).isSome
        = included.any (fun r => decide (r.type = "node--space")
            && decide (r.id = i)))
    ∧ (∀ i, (dictGet (buildReference included).laboratory i).isSome
        = included.any (fun r => decide (r.type = "node--laboratory")
            && decide (r.id = i)))
    ∧ (∀ i entry, dictGet (buildReference included).chemdb_type i = some entry →
        (∃ r, r ∈ included ∧ r.type = "node--chemdb_type" ∧ r.id = i
           ∧ entry = restrictAttributes CHEMDB_FIELDS r.attributes)
        ∧ ∀ p, p ∈ entry → p.1 ∈ CHEMDB_FIELDS)
    ∧ (∀ i entry, dictGet (buildReference included).space i = some entry →
        (∃ r, r ∈ included ∧ r.type = "node--space" ∧ r.id = i
           ∧ entry = restrictAttributes TITLE_FIELDS r.attributes)
        ∧ ∀ p, p ∈ entry → p.1 ∈ TITLE_FIELDS)
    ∧ (∀ i entry, dictGet (buildReference included).laboratory i = some entry →
        (∃ r, r ∈ included ∧ r.type = "node--laboratory" ∧ r.id = i
           ∧ entry = restrictAttributes TITLE_FIELDS r.attributes)
        ∧ ∀ p, p ∈ entry → p.1 ∈ TITLE_FIELDS) := by
  refine ⟨rfl,
    fun i => dictGet_buildTable_isSome _ _ included i,
    fun i => dictGet_buildTable_isSome _ _ included i,
    fun i => dictGet_buildTable_isSome _ _ included i,
    fun i entry h => ?_, fun i entry h => ?_, fun i entry h => ?_⟩
  all_goals {
    obtain ⟨r, hmem, h1, h2, h3⟩ := dictGet_buildTable_some _ _ included i entry h
    refine ⟨⟨r, hmem, h1, h2, h3⟩, fun p hp => ?_⟩
    rw [h3] at hp
    exact (mem_restrictAttributes _ _ p hp).1 }

/-- C7 counterexample: the Reference Index Builder does have an error
condition: on a document with no `included` key it raises `KeyError` rather
than yielding three empty mappings. -/
theorem C7_counterexample :
    load_reference_tables { data := some [], included := none }
      = Except.error "KeyError: included" := rfl

/-- C7 amended: when the auxiliary collection is present the builder always
succeeds, and an empty collection yields three empty mappings; a document
missing the collection altogether is an error (`KeyError: included`). -/
theorem C7_amended_builder_totality :
    (∀ d included, load_reference_tables { data := d, included := some included }
        = Except.ok (buildReference included))
    ∧ buildReference [] = { chemdb_type := [], space := [], laboratory := [] }
    ∧ (∀ d, load_reference_tables { data := d, included := none }
        = Except.error "KeyError: included") :=
  ⟨fun _ _ => rfl, rfl, fun _ => rfl⟩

/-- C10: a record of a recognized kind whose (kind, id) pair is repeated
does not break the builder: the mapping binds the id to the restricted
attributes of the record occurring latest in the collection, whatever stands
before it. -/
theorem C10_latest_duplicate_wins (pre post : List IncludedRecord)
    (r : IncludedRecord)
    (hpost : ∀ r2 ∈ post, ¬(r2.type = r.type ∧ r2.id = r.id)) :
    (r.type = "node--chemdb_type" →
      dictGet (buildReference (pre ++ r :: post)).chemdb_type r.id
        = some (restrictAttributes CHEMDB_FIELDS r.attributes))
    ∧ (r.type = "node--space" →
      dictGet (buildReference (pre ++ r :: post)).space r.id
        = some (restrictAttributes TITLE_FIELDS r.attributes))
    ∧ (r.type = "node--laboratory" →
      dictGet (buildReference (pre ++ r :: post)).laboratory r.id
        = some (restrictAttributes TITLE_FIELDS r.attributes)) := by
  refine ⟨fun hk => ?_, fun hk => ?_, fun hk => ?_⟩
  all_goals {
    show dictGet (buildTable _ _ (pre ++ r :: post)) r.id = _
    rw [buildTable_append, dictGet_append, buildTable_cons, if_pos hk,
      dictGet_cons,
      dictGet_buildTable_none _ _ post r.id
        (fun r2 hmem hc => hpost r2 hmem ⟨hc.1.trans hk.symm, hc.2⟩)]
    simp }

/-- Two chemical-type records sharing the id `T1`. -/
def dupFirst : IncludedRecord :=
  { id := "T1", type := "node--chemdb_type",
    attributes := [("field_chemdb_cas_number", "111-11-1")] }

/-- The later of the two duplicate records. -/
def dupSecond : IncludedRecord :=
  { id := "T1", type := "node--chemdb_type",
    attributes := [("field_chemdb_cas_number", "222-22-2")] }

/-- C10 witness: with two `T1` chemical-type records, the index binds `T1`
to the later record's restricted attributes. -/
theorem C10_latest_duplicate_wins_witness :
    dictGet (buildReference ([dupFirst] ++ dupSecond :: [])).chemdb_type dupSecond.id
      = some (restrictAttributes CHEMDB_FIELDS dupSecond.attributes) :=
  (C10_latest_duplicate_wins [dupFirst] [] dupSecond (by simp)).1 rfl

end ProcessJson
